import Mathlib

/-!
Shallow embedding of the account-management service of the
`aabdelnour/event_manager` repository, and proofs of the frozen claims
about it.

The embedding follows the Python source:
* `src/app/services/user_service.py` — `UserService` (create, login_user,
  verify_email_with_token, count, the lookup helpers);
* `src/app/dependencies.py` — `require_role`;
* `src/settings/config.py` — `Settings.max_login_attempts` (default 3).

The database session is modelled as a list of `User` records; lookups are
`List.find?` with the same predicates the SQLAlchemy queries use, and
`session.add` + `commit` on an already-persisted record is modelled as an
in-place update keyed by `id` (`persist`).  The password hasher and its
verifier live in `app/utils/security.py`, which is not part of the sources
here; the service treats them as opaque callables, so the embedding takes
the verifier as a function parameter.  The nickname generator
(`app/utils/nickname_gen.py`, also absent) is likewise a parameter: a
stream of candidate nicknames indexed by call count.
-/

namespace EventManager

/-- Roles of `UserRole` in `app/models/user_model.py` (file absent from the
sources; the enumeration {ANONYMOUS, AUTHENTICATED, MANAGER, ADMIN} is the
one the spec's data model and the model tests use). -/
inductive UserRole where
  | ANONYMOUS
  | AUTHENTICATED
  | MANAGER
  | ADMIN
deriving DecidableEq, Repr

/-- Account record.  Modelled from the spec: `app/models/user_model.py` is
absent from the sources, so the fields are the ones the spec's data model
lists and `user_service.py` reads and writes (`email`, `nickname`,
`hashed_password`, `verification_token`, `email_verified`, `is_locked`,
`failed_login_attempts`, `last_login_at`).  Identifiers are `Nat`,
timestamps are `Option Nat`. -/
structure User where
  id : Nat
  email : String
  nickname : String
  hashed_password : String
  verification_token : Option String
  email_verified : Bool
  is_locked : Bool
  failed_login_attempts : Nat
  role : UserRole
  last_login_at : Option Nat
deriving DecidableEq, Repr

/-- The database session state: the persisted account rows. -/
abbrev DB := List User

/-- `UserService.get_by_email`: `select(User).where(User.email == email)`,
first result. -/
def get_by_email (db : DB) (email : String) : Option User :=
  db.find? (fun u => u.email == email)

/-- `UserService.get_by_id`: `select(User).where(User.id == user_id)`,
first result. -/
def get_by_id (db : DB) (user_id : Nat) : Option User :=
  db.find? (fun u => u.id == user_id)

/-- `UserService.get_by_nickname`: `select(User).where(User.nickname ==
nickname)`, first result. -/
def get_by_nickname (db : DB) (nickname : String) : Option User :=
  db.find? (fun u => u.nickname == nickname)

/-- `session.add(user)` + `await session.commit()` on a row that is already
persisted: the stored row with the same primary key takes the new values. -/
def persist (db : DB) (u : User) : DB :=
  db.map (fun v => if v.id == u.id then u else v)

/-- `UserService.count`: `select(func.count()).select_from(User)`. -/
def count (db : DB) : Nat :=
  db.length

/-- `UserService.login_user` (user_service.py lines 112-124), with the
opaque `verify_password` from `app/utils/security.py` passed in as `vp`.
The code looks the account up by email; if it exists and the password
verifies, it sets `failed_login_attempts` to 0, persists and returns the
account; otherwise, if the account exists, it increments
`failed_login_attempts` and persists, and returns `None`.  It never reads
or writes `is_locked` and never writes `last_login_at`. -/
def login_user (vp : String → String → Bool) (db : DB) (email password : String) :
    Option User × DB :=
  match get_by_email db email with
  | some user =>
      if vp password user.hashed_password then
        let u := { user with failed_login_attempts := 0 }
        (some u, persist db u)
      else
        let u := { user with failed_login_attempts := user.failed_login_attempts + 1 }
        (none, persist db u)
  | none => (none, db)

/-- `UserService.verify_email_with_token` (user_service.py lines 127-135).
The supplied token is `Option String`: the Python parameter is annotated
`str` but the runtime does not enforce it, and the comparison
`user.verification_token == token` is plain equality between the stored
value (a string or `None`) and the supplied value. -/
def verify_email_with_token (db : DB) (user_id : Nat) (token : Option String) :
    Bool × DB :=
  match get_by_id db user_id with
  | some user =>
      if user.verification_token == token then
        let u := { user with email_verified := true, verification_token := none }
        (true, persist db u)
      else
        (false, db)
  | none => (false, db)

/-- `UserService.is_account_locked` (user_service.py lines 138-140). -/
def is_account_locked (db : DB) (email : String) : Bool :=
  match get_by_email db email with
  | some user => user.is_locked
  | none => false

/-- `Settings.max_login_attempts` (settings/config.py line 6): default 3. -/
def max_login_attempts : Nat := 3

/-- A `fastapi.HTTPException`: status code and detail message. -/
structure HTTPError where
  status_code : Nat
  detail : String
deriving DecidableEq, Repr

/-- The nickname-collision loop of `UserService.create` (user_service.py
lines 32-35):

    new_nickname = generate_nickname()
    while await cls.get_by_nickname(session, new_nickname):
        new_nickname = generate_nickname()

`g i` is the candidate the i-th call of the opaque `generate_nickname`
returns.  The Python loop has no retry cap, so the embedding carries a
`fuel` bound supplied from outside: `none` means the loop has not produced
a nickname within `fuel` iterations (the code would still be looping). -/
def find_nickname (db : DB) (g : Nat → String) : Nat → Nat → Option String
  | 0, _ => none
  | fuel + 1, i =>
      if (get_by_nickname db (g i)).isSome then
        find_nickname db g fuel (i + 1)
      else
        some (g i)

/-- The row `UserService.create` builds and inserts: `User(**validated_data)`
with the hashed password, the freshly minted verification token and the
generated nickname; a new account starts unverified, unlocked, with a
zero failure counter and the default role. -/
def mkNewUser (hash : String → String) (tok : String) (newId : Nat)
    (email password nick : String) : User :=
  { id := newId, email := email, nickname := nick,
    hashed_password := hash password,
    verification_token := some tok,
    email_verified := false, is_locked := false,
    failed_login_attempts := 0, role := UserRole.ANONYMOUS,
    last_login_at := none }

/-- `UserService.create` (user_service.py lines 21-52), with the opaque
collaborators passed in: `hash` is `hash_password`, `tok` the value
`generate_verification_token()` returns, `g` the candidate stream of
`generate_nickname`, and `notify_ok` whether
`email_service.send_verification_email` succeeds (when it raises, the
code logs the failure and still returns the new user).  Pydantic
validation of `user_data` happens before any of this and is elided: the
claims below quantify over already well-formed emails.  `newId` is the
primary key the store assigns; `log` collects `logger.error` output.
The result is `none` when the nickname loop has not terminated within
`fuel` iterations; otherwise the service either raises an `HTTPError`
(the duplicate-email 400) leaving the store untouched, or returns the
created user together with the new store and log. -/
def create (hash : String → String) (tok : String) (g : Nat → String)
    (notify_ok : Bool) (fuel : Nat) (newId : Nat) (db : DB) (log : List String)
    (email password : String) :
    Option (Except HTTPError User × DB × List String) :=
  match get_by_email db email with
  | some _ =>
      some (Except.error ⟨400, "User with given email already exists."⟩, db,
        log ++ ["User with given email already exists."])
  | none =>
      match find_nickname db g fuel 0 with
      | none => none
      | some nick =>
          let u : User := mkNewUser hash tok newId email password nick
          let log2 :=
            if notify_ok then log
            else log ++ ["Failed to send verification email"]
          some (Except.ok u, db ++ [u], log2)

/-- The authenticated subject `get_current_user` yields in
`app/dependencies.py`: the dict `{"user_id": ..., "role": ...}` decoded
from the bearer token (both values are strings there). -/
structure CurrentUser where
  user_id : String
  role : String
deriving DecidableEq, Repr

/-- The checker `require_role(allowed_roles)` returns
(app/dependencies.py lines 46-51): raise 403 "Operation not permitted"
if `current_user["role"] not in allowed_roles`, else return the user. -/
def require_role (allowed_roles : List String) (current_user : CurrentUser) :
    Except HTTPError CurrentUser :=
  if current_user.role ∈ allowed_roles then
    Except.ok current_user
  else
    Except.error ⟨403, "Operation not permitted"⟩

/-- `authenticate_user` (app/utils/auth.py lines 6-12): look the user up
by email; return it if the password verifies, else `None`.  Read-only. -/
def authenticate_user (vp : String → String → Bool) (db : DB)
    (username password : String) : Option User :=
  match get_by_email db username with
  | some user => if vp password user.hashed_password then some user else none
  | none => none

/-! ### Helper lemmas about the store -/

lemma get_by_email_email (db : DB) (e : String) (u : User)
    (h : get_by_email db e = some u) : u.email = e := by
  have := List.find?_some h
  simpa using this

lemma get_by_id_id (db : DB) (i : Nat) (u : User)
    (h : get_by_id db i = some u) : u.id = i := by
  have := List.find?_some h
  simpa using this

/-- After an update keyed on `u.id`, looking the row up by that id yields
the updated values, provided the lookup succeeded before the update. -/
lemma get_by_id_persist (db : DB) (u : User) (i : Nat) (w : User)
    (hu : u.id = i) (hw : get_by_id db i = some w) :
    get_by_id (persist db u) i = some u := by
  induction db with
  | nil => simp [get_by_id] at hw
  | cons v t ih =>
    by_cases hv : v.id = u.id
    · have h1 : (v.id == u.id) = true := by simp [hv]
      simp only [persist, List.map_cons, h1, if_true, get_by_id]
      rw [List.find?_cons_of_pos]
      simp [hu]
    · have h1 : (v.id == u.id) = false := by simp [hv]
      have h2 : (v.id == i) = false := by
        simp only [hu] at hv ⊢
        simp [hv]
      simp only [get_by_id, List.find?_cons, h2, Bool.false_eq_true,
        if_false] at hw
      simp only [persist, List.map_cons, h1, if_false, get_by_id,
        List.find?_cons, h2, Bool.false_eq_true]
      exact ih hw

/-- After an update keyed on `u.id` that keeps the row's email, looking the
row up by that email yields the updated values, provided the lookup
succeeded before the update. -/
lemma get_by_email_persist (db : DB) (u : User) (e : String) (w : User)
    (he : u.email = e) (hid : w.id = u.id) (hw : get_by_email db e = some w) :
    get_by_email (persist db u) e = some u := by
  induction db with
  | nil => simp [get_by_email] at hw
  | cons v t ih =>
    by_cases hv : v.id = u.id
    · have h1 : (v.id == u.id) = true := by simp [hv]
      simp only [persist, List.map_cons, h1, if_true, get_by_email]
      rw [List.find?_cons_of_pos]
      simp [he]
    · have h1 : (v.id == u.id) = false := by simp [hv]
      by_cases hve : v.email = e
      · have : get_by_email (v :: t) e = some v := by
          simp only [get_by_email]
          rw [List.find?_cons_of_pos]
          simp [hve]
        rw [this] at hw
        cases hw
        exact absurd hid hv
      · have h2 : (v.email == e) = false := by simp [hve]
        simp only [get_by_email, List.find?_cons, h2, Bool.false_eq_true,
          if_false] at hw
        simp only [persist, List.map_cons, h1, if_false, get_by_email,
          List.find?_cons, h2, Bool.false_eq_true]
        exact ih hw

/-! ### Concrete accounts used by witnesses and counterexamples -/

/-- A registered, unlocked account whose password digest the toy verifier
`fun p h => p == h` accepts for the plaintext "pw". -/
def sampleUser : User :=
  { id := 1, email := "a@x.com", nickname := "nick1",
    hashed_password := "pw", verification_token := some "t",
    email_verified := false, is_locked := false,
    failed_login_attempts := 0, role := UserRole.AUTHENTICATED,
    last_login_at := none }

/-- An account two failures away from the lockout threshold of
`max_login_attempts = 3`. -/
def nearLockUser : User :=
  { sampleUser with
    id := 2, email := "b@x.com", nickname := "nick2",
    failed_login_attempts := 2 }

/-- A locked account (`is_locked = true`) with the correct digest for the
plaintext "pw". -/
def lockedUser : User :=
  { sampleUser with
    id := 3, email := "c@x.com", nickname := "nick3",
    is_locked := true }

/-- An account whose verification token has already been consumed
(stored token is `none`). -/
def consumedTokenUser : User :=
  { sampleUser with
    id := 4, email := "d@x.com", nickname := "nick4",
    verification_token := none }

/-! ### Claims -/

/-- C1: the claim says that on a failed login `login_user` increments
`failed_login_attempts` and persists it (which the code does), and that
when the counter thereby reaches `settings.max_login_attempts` the same
update sets `is_locked := true`.  The code never writes `is_locked`:
evaluated at an account standing at 2 failures with the default maximum
of 3, a further failed login persists a counter equal to the maximum yet
leaves `is_locked = false`.  The repository's own test
`test_account_lock_after_failed_logins` asserts the lock and fails
against this code, so the code, not the claim, is wrong. -/
theorem C1_counter_reaches_max_without_lock :
    (login_user (fun _ _ => false) [nearLockUser] "b@x.com" "wrong").1 = none ∧
    get_by_email (login_user (fun _ _ => false) [nearLockUser] "b@x.com" "wrong").2
        "b@x.com" =
      some { nearLockUser with failed_login_attempts := max_login_attempts } ∧
    ({ nearLockUser with
        failed_login_attempts := max_login_attempts } : User).is_locked = false := by
  decide

/-- C2: the claim says a locked account is denied without any password
comparison.  `login_user` never consults `is_locked`: on a locked account
it still runs the password check, and with the correct password it
resets the counter, persists and returns the account — the login
succeeds.  The lockout machinery attested by the spec and by the
repository's tests is simply absent from this code path, so the code,
not the claim, is wrong. -/
theorem C2_locked_account_login_succeeds :
    lockedUser.is_locked = true ∧
    (login_user (fun p h => p == h) [lockedUser] "c@x.com" "pw").1 =
      some { lockedUser with failed_login_attempts := 0 } := by
  decide

/-- C4 counterexample: the claim says a successful login sets
`last_login_at`.  Evaluated at a concrete account with
`last_login_at = none` and the correct password, the login succeeds
(counter reset to 0) yet both the returned account and the persisted row
still carry `last_login_at = none`: the field is never set. -/
theorem C4_no_last_login_update :
    sampleUser.last_login_at = none ∧
    (login_user (fun p h => p == h) [sampleUser] "a@x.com" "pw").1 =
      some { sampleUser with failed_login_attempts := 0 } ∧
    ((login_user (fun p h => p == h) [sampleUser] "a@x.com" "pw").2.map
        (fun u => u.last_login_at)) = [none] := by
  decide

/-- C4 (amended): for every account and every `login_user` call with that
account's email and a password the verifier accepts, the call resets
`failed_login_attempts` to 0, persists the account, and returns it;
`last_login_at` is left unchanged (`login_user` does not write it). -/
theorem C4_success_resets_counter (vp : String → String → Bool) (db : DB)
    (email password : String) (u : User)
    (hu : get_by_email db email = some u)
    (hv : vp password u.hashed_password = true) :
    login_user vp db email password =
      (some { u with failed_login_attempts := 0 },
        persist db { u with failed_login_attempts := 0 }) ∧
    get_by_email (login_user vp db email password).2 email =
      some { u with failed_login_attempts := 0 } ∧
    ({ u with failed_login_attempts := 0 } : User).last_login_at =
      u.last_login_at := by
  have he : u.email = email := get_by_email_email db email u hu
  have hmain : login_user vp db email password =
      (some { u with failed_login_attempts := 0 },
        persist db { u with failed_login_attempts := 0 }) := by
    simp only [login_user, hu, hv, if_true]
  refine ⟨hmain, ?_, rfl⟩
  rw [hmain]
  exact get_by_email_persist db { u with failed_login_attempts := 0 } email u
    he rfl hu

/-- Witness for C4: the amended statement evaluated at `sampleUser`. -/
theorem C4_success_resets_counter_witness :
    login_user (fun p h => p == h) [sampleUser] "a@x.com" "pw" =
      (some { sampleUser with failed_login_attempts := 0 },
        persist [sampleUser] { sampleUser with failed_login_attempts := 0 }) ∧
    get_by_email (login_user (fun p h => p == h) [sampleUser] "a@x.com" "pw").2
        "a@x.com" =
      some { sampleUser with failed_login_attempts := 0 } ∧
    ({ sampleUser with failed_login_attempts := 0 } : User).last_login_at =
      sampleUser.last_login_at :=
  C4_success_resets_counter (fun p h => p == h) [sampleUser] "a@x.com" "pw"
    sampleUser (by decide) (by decide)

/-- C5: `verify_email_with_token` returns true exactly when the account
exists and its stored verification token equals the supplied token
(string equality, hence case-sensitive); on success it sets
`email_verified`, clears the token and persists, so a second call with
the same token fails; on any mismatch or missing account it returns
false and leaves the store untouched. -/
theorem C5_verify_email_exact_once (db : DB) (user_id : Nat) (tok : String) :
    ((verify_email_with_token db user_id (some tok)).1 = true ↔
      ∃ u, get_by_id db user_id = some u ∧ u.verification_token = some tok) ∧
    (∀ u, get_by_id db user_id = some u → u.verification_token = some tok →
      (verify_email_with_token db user_id (some tok)).1 = true ∧
      get_by_id (verify_email_with_token db user_id (some tok)).2 user_id =
        some { u with email_verified := true, verification_token := none } ∧
      (verify_email_with_token
        (verify_email_with_token db user_id (some tok)).2 user_id
        (some tok)).1 = false) ∧
    ((verify_email_with_token db user_id (some tok)).1 = false →
      (verify_email_with_token db user_id (some tok)).2 = db) := by
  refine ⟨?_, ?_, ?_⟩
  · constructor
    · intro h
      cases hu : get_by_id db user_id with
      | some u =>
          refine ⟨u, rfl, ?_⟩
          by_contra hne
          have hb : (u.verification_token == some tok) = false := by
            simp [hne]
          simp [verify_email_with_token, hu, hb] at h
      | none => simp [verify_email_with_token, hu] at h
    · rintro ⟨u, hu, ht⟩
      simp [verify_email_with_token, hu, ht]
  · intro u hu ht
    have hstep : verify_email_with_token db user_id (some tok) =
        (true, persist db
          { u with email_verified := true, verification_token := none }) := by
      simp [verify_email_with_token, hu, ht]
    have hid :
        ({ u with email_verified := true, verification_token := none } : User).id =
          user_id :=
      get_by_id_id db user_id u hu
    have hget : get_by_id
        (persist db
          { u with email_verified := true, verification_token := none }) user_id =
        some { u with email_verified := true, verification_token := none } :=
      get_by_id_persist db _ user_id u hid hu
    refine ⟨by rw [hstep], ?_, ?_⟩
    · rw [hstep]
      exact hget
    · rw [hstep]
      simp [verify_email_with_token, hget]
  · intro h
    cases hu : get_by_id db user_id with
    | some u =>
        by_cases ht : u.verification_token = some tok
        · simp [verify_email_with_token, hu, ht] at h
        · have hb : (u.verification_token == some tok) = false := by simp [ht]
          simp [verify_email_with_token, hu, hb]
    | none => simp [verify_email_with_token, hu]

/-- Witness for C5: the success half evaluated at `sampleUser`, whose
stored token is "t": the first call succeeds and the repeat call with the
same token fails. -/
theorem C5_verify_email_exact_once_witness :
    (verify_email_with_token [sampleUser] 1 (some "t")).1 = true ∧
    (verify_email_with_token
      (verify_email_with_token [sampleUser] 1 (some "t")).2 1
      (some "t")).1 = false := by
  have h := (C5_verify_email_exact_once [sampleUser] 1 "t").2.1 sampleUser
    (by decide) (by decide)
  exact ⟨h.1, h.2.2⟩

/-- C10: the equality check of `verify_email_with_token` compares the
stored value with the supplied value directly and never checks that a
pending token is present: on an account whose token was already consumed
(stored value `None`), supplying `None` makes the comparison succeed, so
the call returns true and sets `email_verified` again. -/
theorem C10_verify_none_token (db : DB) (user_id : Nat) (u : User)
    (hu : get_by_id db user_id = some u)
    (ht : u.verification_token = none) :
    (verify_email_with_token db user_id none).1 = true ∧
    get_by_id (verify_email_with_token db user_id none).2 user_id =
      some { u with email_verified := true, verification_token := none } := by
  have hstep : verify_email_with_token db user_id none =
      (true, persist db
        { u with email_verified := true, verification_token := none }) := by
    simp [verify_email_with_token, hu, ht]
  have hid :
      ({ u with email_verified := true, verification_token := none } : User).id =
        user_id :=
    get_by_id_id db user_id u hu
  refine ⟨by rw [hstep], ?_⟩
  rw [hstep]
  exact get_by_id_persist db _ user_id u hid hu

/-- Witness for C10: `consumedTokenUser` has a consumed (absent) token;
verifying with an absent token succeeds and re-sets `email_verified`. -/
theorem C10_verify_none_token_witness :
    (verify_email_with_token [consumedTokenUser] 4 none).1 = true ∧
    get_by_id (verify_email_with_token [consumedTokenUser] 4 none).2 4 =
      some { consumedTokenUser with
        email_verified := true, verification_token := none } :=
  C10_verify_none_token [consumedTokenUser] 4 consumedTokenUser
    (by decide) (by decide)

/-- C9: the outward result of a failed login does not reveal whether the
email exists: on an email with no account and on an existing account with
a password the verifier rejects, `login_user` returns the same denied
value, `none`. -/
theorem C9_failed_login_indistinguishable (vp : String → String → Bool)
    (db : DB) (e1 e2 pw1 pw2 : String) (u : User)
    (h1 : get_by_email db e1 = none)
    (h2 : get_by_email db e2 = some u)
    (h3 : vp pw2 u.hashed_password = false) :
    (login_user vp db e1 pw1).1 = (login_user vp db e2 pw2).1 ∧
    (login_user vp db e1 pw1).1 = none := by
  have ha : (login_user vp db e1 pw1).1 = none := by
    simp [login_user, h1]
  have hb : (login_user vp db e2 pw2).1 = none := by
    simp [login_user, h2, h3]
  exact ⟨ha.trans hb.symm, ha⟩

/-- Witness for C9: against a store holding only `sampleUser`, a login
with an unknown email and a login with `sampleUser`'s email but a wrong
password both come back `none`. -/
theorem C9_failed_login_indistinguishable_witness :
    (login_user (fun p h => p == h) [sampleUser] "ghost@x.com" "pw").1 =
      (login_user (fun p h => p == h) [sampleUser] "a@x.com" "wrong").1 ∧
    (login_user (fun p h => p == h) [sampleUser] "ghost@x.com" "pw").1 =
      none :=
  C9_failed_login_indistinguishable (fun p h => p == h) [sampleUser]
    "ghost@x.com" "a@x.com" "pw" "wrong" sampleUser
    (by decide) (by decide) (by decide)

/-- C8: authorization is a flat set-membership test: `require_role`
denies with 403 exactly when the subject's role is not a member of the
allowed list, and in particular an ADMIN subject is denied by a check
whose allowed list names only MANAGER. -/
theorem C8_flat_role_membership :
    (∀ (allowed_roles : List String) (cu : CurrentUser),
      require_role allowed_roles cu =
        Except.error ⟨403, "Operation not permitted"⟩ ↔
      cu.role ∉ allowed_roles) ∧
    require_role ["MANAGER"] ⟨"u1", "ADMIN"⟩ =
      Except.error ⟨403, "Operation not permitted"⟩ := by
  constructor
  · intro allowed_roles cu
    constructor
    · intro h hmem
      simp [require_role, hmem] at h
    · intro hmem
      simp [require_role, hmem]
  · rfl

/-- Witness for C8: the concrete ADMIN-against-MANAGER-only denial,
extracted from the theorem. -/
theorem C8_flat_role_membership_witness :
    require_role ["MANAGER"] ⟨"u1", "ADMIN"⟩ =
      Except.error ⟨403, "Operation not permitted"⟩ :=
  C8_flat_role_membership.2

/-- On a saturated namespace — every candidate the generator can produce
already belongs to an account — the nickname loop makes no progress: no
iteration bound suffices. -/
lemma find_nickname_saturated (db : DB) (g : Nat → String)
    (hsat : ∀ n, (get_by_nickname db (g n)).isSome = true) :
    ∀ fuel i, find_nickname db g fuel i = none := by
  intro fuel
  induction fuel with
  | zero => intro i; rfl
  | succ n ih =>
      intro i
      simp only [find_nickname, hsat i, if_true]
      exact ih (i + 1)

/-- C3: the claim says nickname regeneration is retried only a bounded
number of times, failing with a distinct error once the cap is exceeded.
The `while` loop at user_service.py lines 33-34 has no cap and no such
error: whenever every candidate the generator produces collides with an
existing account, `create` completes within no iteration bound at all —
for every fuel value the registration is still looping, and no distinct
error is ever raised.  The spec explicitly requires the cap ("must
terminate; an implementer must cap retries and fail with a distinct
error") and flags the source's loop as unbounded, so the code, not the
claim, is wrong. -/
theorem C3_create_loops_on_saturated_namespace
    (hash : String → String) (tok : String) (g : Nat → String)
    (notify_ok : Bool) (newId : Nat) (db : DB) (log : List String)
    (email password : String)
    (hfresh : get_by_email db email = none)
    (hsat : ∀ n, (get_by_nickname db (g n)).isSome = true) :
    ∀ fuel, create hash tok g notify_ok fuel newId db log email password =
      none := by
  intro fuel
  simp [create, hfresh, find_nickname_saturated db g hsat fuel 0]

/-- Witness for C3: with the store holding an account nicknamed "nick1"
and a generator that only ever proposes "nick1", registration of a fresh
email has still not finished after 100 iterations. -/
theorem C3_create_loops_witness :
    create (fun p => p) "t" (fun _ => "nick1") true 100 7 [sampleUser] []
      "fresh@x.com" "pw" = none :=
  C3_create_loops_on_saturated_namespace (fun p => p) "t" (fun _ => "nick1")
    true 7 [sampleUser] [] "fresh@x.com" "pw" (by decide)
    (fun _ => show (get_by_nickname [sampleUser] "nick1").isSome = true by decide)
    100

/-- C6: when the store already holds an account with the candidate email,
`create` raises the duplicate error (HTTP 400, after logging it), inserts
nothing — the store comes back unchanged — and the account count does not
increase. -/
theorem C6_duplicate_email_rejected
    (hash : String → String) (tok : String) (g : Nat → String)
    (notify_ok : Bool) (fuel newId : Nat) (db : DB) (log : List String)
    (email password : String) (u : User)
    (hu : get_by_email db email = some u) :
    create hash tok g notify_ok fuel newId db log email password =
      some (Except.error ⟨400, "User with given email already exists."⟩, db,
        log ++ ["User with given email already exists."]) ∧
    (∀ r, create hash tok g notify_ok fuel newId db log email password =
        some r → count r.2.1 = count db) := by
  have hmain : create hash tok g notify_ok fuel newId db log email password =
      some (Except.error ⟨400, "User with given email already exists."⟩, db,
        log ++ ["User with given email already exists."]) := by
    simp [create, hu]
  refine ⟨hmain, ?_⟩
  intro r hr
  rw [hmain] at hr
  injection hr with h
  rw [← h]

/-- Witness for C6: registering "a@x.com" a second time against the store
that already holds `sampleUser` yields the 400 duplicate error and leaves
the one-row store as it was. -/
theorem C6_duplicate_email_rejected_witness :
    create (fun p => p) "t2" (fun _ => "nickZ") true 5 9 [sampleUser] []
      "a@x.com" "pw2" =
      some (Except.error ⟨400, "User with given email already exists."⟩,
        [sampleUser], ["User with given email already exists."]) :=
  (C6_duplicate_email_rejected (fun p => p) "t2" (fun _ => "nickZ") true 5 9
    [sampleUser] [] "a@x.com" "pw2" sampleUser (by decide)).1

/-- C7: a notification failure never reaches the caller: whether the
verification email is sent or the notifier raises, `create` returns the
same created account and the same new store — the persisted row keeps its
unconsumed verification token — and in the failure case the error is
merely logged. -/
theorem C7_notify_failure_not_propagated
    (hash : String → String) (tok : String) (g : Nat → String)
    (fuel newId : Nat) (db : DB) (log : List String)
    (email password nick : String)
    (hfresh : get_by_email db email = none)
    (hnick : find_nickname db g fuel 0 = some nick) :
    create hash tok g true fuel newId db log email password =
      some (Except.ok (mkNewUser hash tok newId email password nick),
        db ++ [mkNewUser hash tok newId email password nick], log) ∧
    create hash tok g false fuel newId db log email password =
      some (Except.ok (mkNewUser hash tok newId email password nick),
        db ++ [mkNewUser hash tok newId email password nick],
        log ++ ["Failed to send verification email"]) ∧
    (mkNewUser hash tok newId email password nick).verification_token =
      some tok := by
  refine ⟨?_, ?_, rfl⟩ <;> simp [create, hfresh, hnick]

/-- Witness for C7: registering a fresh email with a notifier that
raises still returns the created account, stores it with its token, and
logs the failure. -/
theorem C7_notify_failure_witness :
    create (fun p => p) "t3" (fun _ => "nickNew") false 5 9 [sampleUser] []
      "fresh@x.com" "pw" =
      some
        (Except.ok (mkNewUser (fun p => p) "t3" 9 "fresh@x.com" "pw" "nickNew"),
        [sampleUser] ++
          [mkNewUser (fun p => p) "t3" 9 "fresh@x.com" "pw" "nickNew"],
        ["Failed to send verification email"]) :=
  (C7_notify_failure_not_propagated (fun p => p) "t3" (fun _ => "nickNew") 5 9
    [sampleUser] [] "fresh@x.com" "pw" "nickNew" (by decide) (by decide)).2.1

end EventManager
